import Mathlib

/-!
Shallow embedding of the multi-tenant HR backend (luva_backend).

The database is modelled as an explicit in-memory state: the fixed
`Company Master` registry table, the dynamically named per-tenant employee
tables (`<code>_Employees`), the dynamically named per-tenant team tables
(`<code>_Teams`, created by `employee_crud.add_team`), and the two shared
tables `Employee Teams` and `Employee Team Mapping` used by `teams/team.py`.

Each HTTP endpoint body becomes a pure function from its payload and the
current state to a result, the successor state, and the list of raw SQL
strings it assembled and submitted (`db.execute(text(...))` calls).  A raised
`HTTPException(status, detail)` becomes `ApiError.httpError status detail`;
a database or Python exception that no handler catches (and which FastAPI
would turn into a generic 500) becomes `ApiError.unhandledExc msg`.  The
error kind `InvalidIdentifier` from the specification is included in the
error type so that statements about it can be made; no code path of the
source produces it.
-/

namespace Luva

/-- A row of the fixed `Company Master` registry table (database.py,
`CompanyMaster`): columns id, Company Code, Company Name, Company Address,
Company City, Company State, Company Country, Active.  Note that the model
declares no email or phone columns. -/
structure Company where
  id : Nat
  company_code : String
  company_name : String
  company_address : String
  company_city : String
  company_state : String
  company_country : String
  active : Bool
deriving Repr, DecidableEq

/-- A row of a dynamic `<code>_Employees` table (columns per the DDL in
company_crud.create_company; the auto-increment `Id` and the unused
`Picture` column are not tracked). -/
structure EmployeeRow where
  company_code : String
  employee_code : String
  first_name : String
  last_name : String
  email : String
  mobile : String
  designation : String
  role : String
  password : String
  active : Bool
deriving Repr, DecidableEq

/-- A row of a dynamic `<code>_Teams` table (employee_crud.add_team DDL:
`Team Name` UNIQUE, `Team Description`). -/
structure TeamRow where
  team_name : String
  team_description : String
deriving Repr, DecidableEq

/-- A row of the shared `Employee Teams` table (teams/team.py): Id,
Company Code, Team Name, Team Description. -/
structure SharedTeamRow where
  id : Nat
  company_code : String
  team_name : String
  team_description : String
deriving Repr, DecidableEq

/-- A row of the shared `Employee Team Mapping` table (teams/team.py):
Team Id, Employee Code, Company Code. -/
structure MappingRow where
  team_id : Nat
  employee_code : String
  company_code : String
deriving Repr, DecidableEq

/-- The whole database state.  Dynamic tables are association lists from
table name to row list; a table exists exactly when its name is a key. -/
structure DBState where
  companies : List Company
  empTables : List (String × List EmployeeRow)
  teamTables : List (String × List TeamRow)
  employeeTeams : List SharedTeamRow
  teamMapping : List MappingRow
deriving Repr, DecidableEq

/-- Errors an endpoint can surface. `httpError` is a raised
`HTTPException(status, detail)`; `unhandledExc` is an exception no handler
catches (FastAPI generic 500); `invalidIdentifier` is the specification's
`InvalidIdentifier` kind, produced by no code path of the source. -/
inductive ApiError where
  | httpError (status : Nat) (detail : String)
  | unhandledExc (msg : String)
  | invalidIdentifier (key : String)
deriving Repr, DecidableEq

/-- Result of running one endpoint body: the outcome, the state after the
call, and the raw SQL texts assembled and submitted during the call. -/
structure OpResult (α : Type) where
  res : Except ApiError α
  st : DBState
  sql : List String
deriving Repr

/-- `db.query(CompanyMaster).filter(company_code == code).first()`. -/
def findCompany (cs : List Company) (code : String) : Option Company :=
  match cs with
  | [] => none
  | c :: rest => if c.company_code == code then some c else findCompany rest code

/-- Look a dynamic table up by name. -/
def findTable {α : Type} (ts : List (String × List α)) (name : String) :
    Option (List α) :=
  match ts with
  | [] => none
  | (n, rows) :: rest => if n == name then some rows else findTable rest name

/-- Replace the row list of the named table (no-op if absent). -/
def setTable {α : Type} (ts : List (String × List α)) (name : String)
    (rows : List α) : List (String × List α) :=
  match ts with
  | [] => []
  | (n, rs) :: rest =>
      if n == name then (n, rows) :: rest else (n, rs) :: setTable rest name rows

/-- `DROP TABLE IF EXISTS name`: remove the named table. -/
def removeTable {α : Type} (ts : List (String × List α)) (name : String) :
    List (String × List α) :=
  ts.filter (fun p => p.1 != name)

/-- `f"{company_code}_Employees"` — the dynamic employee table name. -/
def employeeTableName (company_code : String) : String :=
  company_code ++ "_Employees"

/-- `f"{company_code}_Teams"` — the dynamic team table name
(employee_crud.add_team). -/
def teamTableName (company_code : String) : String :=
  company_code ++ "_Teams"

/-- The CREATE TABLE DDL text assembled in company_crud.create_company
(whitespace of the Python triple-quoted literal collapsed). -/
def createEmployeeTableSql (t : String) : String :=
  "CREATE TABLE IF NOT EXISTS `" ++ t ++
    "` (`Id` INT AUTO_INCREMENT PRIMARY KEY, `Company Code` VARCHAR(100), `Employee Code` VARCHAR(100) UNIQUE, `First Name` VARCHAR(156), `Last Name` VARCHAR(156), `Email` VARCHAR(100), `Mobile` VARCHAR(56), `Designation` VARCHAR(156), `Role` VARCHAR(50), `Password` VARCHAR(256), `Picture` VARCHAR(255), `Active` BOOLEAN DEFAULT TRUE, FOREIGN KEY (`Company Code`) REFERENCES `Company Master` (`Company Code`) ON DELETE CASCADE)"

/-- The INSERT text assembled in employee_crud.add_employee. -/
def insertEmployeeSql (t : String) : String :=
  "INSERT INTO `" ++ t ++
    "` (`Company Code`, `Employee Code`, `First Name`, `Last Name`, `Email`, `Mobile`, `Designation`, `Role`, `Password`, `Active`) VALUES (:company_code, :employee_code, :first_name, :last_name, :email, :mobile, :designation, :role, :password, :active)"

/-- The SELECT text assembled in employee_crud.get_employee. -/
def selectEmployeeSql (t : String) : String :=
  "SELECT * FROM `" ++ t ++ "` WHERE `Employee Code` = :employee_code"

/-- The UPDATE text assembled in employee_crud.update_employee. -/
def updateEmployeeSql (t : String) (setClause : String) : String :=
  "UPDATE `" ++ t ++ "` SET " ++ setClause ++
    " WHERE `Employee Code` = :employee_code"

/-- The DROP text assembled in company_crud.delete_company. -/
def dropEmployeeTableSql (t : String) : String :=
  "DROP TABLE IF EXISTS `" ++ t ++ "`"

/-- The CREATE TABLE text assembled in employee_crud.add_team. -/
def createTeamTableSql (t : String) : String :=
  "CREATE TABLE IF NOT EXISTS `" ++ t ++
    "` (`Id` INT AUTO_INCREMENT PRIMARY KEY, `Team Name` VARCHAR(255) UNIQUE, `Team Description` TEXT)"

/-- The INSERT text assembled in employee_crud.add_team. -/
def insertTeamSql (t : String) : String :=
  "INSERT INTO `" ++ t ++
    "` (`Team Name`, `Team Description`) VALUES (:team_name, :team_description)"

/-- Message of the driver exception raised by executing a statement against
a table that does not exist (MySQL error 1146); uncaught, it surfaces as a
generic 500 (model rendering of the message). -/
def missingTableMsg (t : String) : String :=
  "ProgrammingError: table `" ++ t ++ "` does not exist"

/-- Modelled from the spec: the external credential hasher (section 6,
"hash(plaintext) -> digest, one-way, salted").  `bcrypt.hashpw` is a library,
not repository code; it is modelled as a deterministic digest carrying the
bcrypt format prefix, capturing that a bcrypt digest (a 60-character string
starting with a dollar sign) is never equal to the plaintext. -/
def hash_password (password : String) : String :=
  "$2b$12$" ++ password

/-- Payload of POST /employee/add_employee (pydantic `EmployeeCreate`). -/
structure EmployeeCreate where
  company_code : String
  employee_code : String
  first_name : String
  last_name : String
  email : String
  mobile : String
  designation : String
  role : String
  password : String
deriving Repr, DecidableEq

/-- Payload of PUT /employee/update_employee (pydantic `EmployeeUpdate`):
every field optional; `None` means "not supplied". -/
structure EmployeeUpdate where
  first_name : Option String := none
  last_name : Option String := none
  email : Option String := none
  mobile : Option String := none
  designation : Option String := none
  active : Option Bool := none
deriving Repr, DecidableEq

/-- Payload of POST /company/create_company (pydantic `CompanyCreate`). -/
structure CompanyCreate where
  company_code : String
  company_name : String
  company_address : String
  company_city : String
  company_state : String
  company_country : String
  company_email : Option String := none
  company_phone_number : Option String := none
deriving Repr, DecidableEq

/-- Payload of POST /employee/add_team (pydantic `TeamCreate` of
employee_crud.py). -/
structure TeamCreate where
  company_code : String
  team_name : String
  team_description : String
deriving Repr, DecidableEq

/-- employee_crud.add_employee: registry check first (404 "Company does not
exist."), then hash the password, build the dynamic table name, and run the
INSERT; an IntegrityError (duplicate `Employee Code`) is turned into a 400;
a missing table raises a ProgrammingError that no handler catches. -/
def add_employee (data : EmployeeCreate) (st : DBState) : OpResult String :=
  match findCompany st.companies data.company_code with
  | none => ⟨.error (.httpError 404 "Company does not exist."), st, []⟩
  | some _ =>
      let hashed := hash_password data.password
      let t := employeeTableName data.company_code
      let q := insertEmployeeSql t
      match findTable st.empTables t with
      | none => ⟨.error (.unhandledExc (missingTableMsg t)), st, [q]⟩
      | some rows =>
          if rows.any (fun e => e.employee_code == data.employee_code) then
            ⟨.error (.httpError 400 "Employee code or email already exists."),
              st, [q]⟩
          else
            let row : EmployeeRow :=
              { company_code := data.company_code
                employee_code := data.employee_code
                first_name := data.first_name
                last_name := data.last_name
                email := data.email
                mobile := data.mobile
                designation := data.designation
                role := data.role
                password := hashed
                active := true }
            ⟨.ok "Employee added successfully.",
              { st with empTables := setTable st.empTables t (rows ++ [row]) },
              [q]⟩

/-- employee_crud.get_employee: no registry or existence check — the SELECT
is assembled from the raw path parameter and executed directly; a missing
table raises an uncaught ProgrammingError; an empty result is a 404
"Employee not found."; otherwise the row is returned. -/
def get_employee (company_code : String) (employee_code : String)
    (st : DBState) : OpResult EmployeeRow :=
  let t := employeeTableName company_code
  let q := selectEmployeeSql t
  match findTable st.empTables t with
  | none => ⟨.error (.unhandledExc (missingTableMsg t)), st, [q]⟩
  | some rows =>
      match rows.find? (fun e => e.employee_code == employee_code) with
      | none => ⟨.error (.httpError 404 "Employee not found."), st, [q]⟩
      | some e => ⟨.ok e, st, [q]⟩

/-- The `updates` list built field by field in employee_crud.update_employee,
in source order: one SET fragment per supplied field. -/
def setClauses (u : EmployeeUpdate) : List String :=
  (match u.first_name with
   | some _ => ["`First Name` = :first_name"] | none => []) ++
  (match u.last_name with
   | some _ => ["`Last Name` = :last_name"] | none => []) ++
  (match u.email with
   | some _ => ["`Email` = :email"] | none => []) ++
  (match u.mobile with
   | some _ => ["`Mobile` = :mobile"] | none => []) ++
  (match u.designation with
   | some _ => ["`Designation` = :designation"] | none => []) ++
  (match u.active with
   | some _ => ["`Active` = :active"] | none => [])

/-- Effect of the UPDATE's SET clause on one matching row: each supplied
field overwrites the stored value, unsupplied fields keep theirs. -/
def applyUpdate (u : EmployeeUpdate) (e : EmployeeRow) : EmployeeRow :=
  { e with
    first_name := u.first_name.getD e.first_name
    last_name := u.last_name.getD e.last_name
    email := u.email.getD e.email
    mobile := u.mobile.getD e.mobile
    designation := u.designation.getD e.designation
    active := u.active.getD e.active }

/-- employee_crud.update_employee: builds the SET fragments from the
supplied fields only; with no fields it raises 400 "No fields to update."
before assembling or executing any SQL; otherwise it executes the UPDATE
(uncaught ProgrammingError if the table is missing), commits, and returns
success — the row count is never inspected. -/
def update_employee (company_code : String) (employee_code : String)
    (data : EmployeeUpdate) (st : DBState) : OpResult String :=
  let t := employeeTableName company_code
  let updates := setClauses data
  if updates.isEmpty then
    ⟨.error (.httpError 400 "No fields to update."), st, []⟩
  else
    let q := updateEmployeeSql t (String.intercalate ", " updates)
    match findTable st.empTables t with
    | none => ⟨.error (.unhandledExc (missingTableMsg t)), st, [q]⟩
    | some rows =>
        let rows' := rows.map (fun e =>
          if e.employee_code == employee_code then applyUpdate data e else e)
        ⟨.ok "Employee updated successfully.",
          { st with empTables := setTable st.empTables t rows' }, [q]⟩

/-- company_crud.create_company: duplicate registry check first (400
"Company code already exists."); on a new code the endpoint then constructs
`CompanyMaster(..., company_email=..., company_phone_number=...)`, but
database.py's `CompanyMaster` declares no such columns, so the SQLAlchemy
declarative constructor raises `TypeError` on line 44, before the try block
— the call never reaches the registry INSERT or the CREATE TABLE DDL. -/
def create_company (data : CompanyCreate) (st : DBState) : OpResult String :=
  match findCompany st.companies data.company_code with
  | some _ => ⟨.error (.httpError 400 "Company code already exists."), st, []⟩
  | none =>
      ⟨.error (.unhandledExc
          "TypeError: company_email is an invalid keyword argument for CompanyMaster"),
        st, []⟩

/-- company_crud.delete_company: 404 "Company not found." if the code is not
in the registry (no other change); otherwise DROP the dynamic employee table
(and only it), then delete the registry row and commit. -/
def delete_company (company_code : String) (st : DBState) : OpResult String :=
  match findCompany st.companies company_code with
  | none => ⟨.error (.httpError 404 "Company not found."), st, []⟩
  | some c =>
      let t := employeeTableName company_code
      let q := dropEmployeeTableSql t
      let st1 := { st with empTables := removeTable st.empTables t }
      let st2 := { st1 with companies := st1.companies.filter (fun x => x.id != c.id) }
      ⟨.ok "Company and its employee table deleted successfully.", st2, [q]⟩

/-- employee_crud.add_team: registry check (404 "Company does not exist.");
CREATE TABLE IF NOT EXISTS `<code>_Teams` and commit; then INSERT the team
row, translating the `Team Name` UNIQUE violation to 400 "Team with this
name already exists." (the table creation stays committed either way). -/
def add_team (data : TeamCreate) (st : DBState) : OpResult String :=
  match findCompany st.companies data.company_code with
  | none => ⟨.error (.httpError 404 "Company does not exist."), st, []⟩
  | some _ =>
      let t := teamTableName data.company_code
      let qCreate := createTeamTableSql t
      let rows := (findTable st.teamTables t).getD []
      let st1 :=
        match findTable st.teamTables t with
        | some _ => st
        | none => { st with teamTables := st.teamTables ++ [(t, [])] }
      let qInsert := insertTeamSql t
      if rows.any (fun r => r.team_name == data.team_name) then
        ⟨.error (.httpError 400 "Team with this name already exists."),
          st1, [qCreate, qInsert]⟩
      else
        ⟨.ok "Team added successfully.",
          { st1 with teamTables :=
              setTable st1.teamTables t (rows ++ [⟨data.team_name, data.team_description⟩]) },
          [qCreate, qInsert]⟩

/-- One element of the `companies_list` built by
superadmin_login.get_dashboard_data. -/
structure CompanyDashboardEntry where
  company_id : Nat
  company_name : String
  company_code : String
  employees_count : Nat
deriving Repr, DecidableEq

/-- The dictionary returned by superadmin_login.get_dashboard_data. -/
structure DashboardData where
  companies_count : Nat
  employees_count : Nat
  companies_list : List CompanyDashboardEntry
deriving Repr, DecidableEq

/-- The per-company loop of get_dashboard_data: for each registry row, try
`SELECT COUNT(*)` against its dynamic employee table; on success add the
count to the running total and append the entry; on any exception (table
missing) append the entry with count 0 and continue.  Returns the total and
the list, in registry order. -/
def dashboardFold (st : DBState) : List Company → Nat × List CompanyDashboardEntry
  | [] => (0, [])
  | c :: rest =>
      let t := employeeTableName c.company_code
      let prev := dashboardFold st rest
      match findTable st.empTables t with
      | some rows =>
          (rows.length + prev.1,
            ⟨c.id, c.company_name, c.company_code, rows.length⟩ :: prev.2)
      | none =>
          (prev.1, ⟨c.id, c.company_name, c.company_code, 0⟩ :: prev.2)

/-- superadmin_login.get_dashboard_data: counts the registry rows, runs the
per-company loop, and returns the three-field dictionary.  No exception
escapes: the per-company try/except swallows every table-access error. -/
def get_dashboard_data (st : DBState) : DashboardData :=
  let cs := st.companies
  let prev := dashboardFold st cs
  ⟨cs.length, prev.1, prev.2⟩

/-- One member of a team in the GET /team/teams/... response
(teams/team.py `EmployeeInfo`). -/
structure EmployeeInfo where
  employee_code : String
  first_name : String
  last_name : String
deriving Repr, DecidableEq

/-- One team of the response (teams/team.py `TeamInfo`). -/
structure TeamInfo where
  team_id : Nat
  team_name : String
  team_description : String
  team_member_count : Nat
  team_members : List EmployeeInfo
deriving Repr, DecidableEq

/-- The response of GET /team/teams/company_code (teams/team.py
`CompanyTeamsResponse`). -/
structure CompanyTeamsResponse where
  company_code : String
  teams : List TeamInfo
deriving Repr, DecidableEq

/-- The members query of get_company_teams: the employee table joined with
`Employee Team Mapping` on `Employee Code`, filtered to the team id and the
company code. -/
def teamMembers (mapping : List MappingRow) (empRows : List EmployeeRow)
    (team_id : Nat) (company_code : String) : List EmployeeInfo :=
  empRows.flatMap (fun e =>
    (mapping.filter (fun m =>
        m.team_id == team_id && m.company_code == company_code &&
          m.employee_code == e.employee_code)).map
      (fun _ => ⟨e.employee_code, e.first_name, e.last_name⟩))

/-- The try-block body of teams/team.get_company_teams: if
`get_employee_model_for_company` finds no `<code>_Employees` table it raises
`HTTPException(404, "Employee table for company '<code>' not found.")`;
otherwise it lists the company's rows of the shared `Employee Teams` table
and, for each, the join with the employee table. -/
def get_company_teams_body (company_code : String) (st : DBState) :
    Except ApiError CompanyTeamsResponse :=
  match findTable st.empTables (employeeTableName company_code) with
  | none =>
      .error (.httpError 404
        ("Employee table for company '" ++ company_code ++ "' not found."))
  | some empRows =>
      let teams := st.employeeTeams.filter (fun t => t.company_code == company_code)
      .ok ⟨company_code,
        teams.map (fun t =>
          let ms := teamMembers st.teamMapping empRows t.id company_code
          ⟨t.id, t.team_name, t.team_description, ms.length, ms⟩)⟩

/-- `str(e)` of a raised starlette `HTTPException` is
`f"{status_code}: {detail}"`; other exceptions render their message. -/
def excStr : ApiError → String
  | .httpError status detail => toString status ++ ": " ++ detail
  | .unhandledExc msg => msg
  | .invalidIdentifier key => key

/-- teams/team.get_company_teams as a whole: the body runs inside
`try: ... except Exception as e: raise HTTPException(500, f"Database error:
{str(e)}")`.  starlette's `HTTPException` is a subclass of `Exception`, so
the 404 raised inside the body is caught here too and re-raised as a 500. -/
def get_company_teams (company_code : String) (st : DBState) :
    Except ApiError CompanyTeamsResponse :=
  match get_company_teams_body company_code st with
  | .ok v => .ok v
  | .error e => .error (.httpError 500 ("Database error: " ++ excStr e))

/-! Concrete fixtures used by witnesses and counterexamples. -/

/-- A registry row for tenant key "ACME". -/
def acme : Company :=
  ⟨1, "ACME", "Acme Corp", "1 Main St", "Springfield", "Illinois", "USA", true⟩

/-- The empty database. -/
def stEmpty : DBState := ⟨[], [], [], [], []⟩

/-- ACME registered, its employee table present and empty. -/
def stACME : DBState := ⟨[acme], [("ACME_Employees", [])], [], [], []⟩

/-- ACME registered but its employee table missing (dropped out of band). -/
def stACMEnoTable : DBState := ⟨[acme], [], [], [], []⟩

/-- A payload for adding employee E1 to ACME. -/
def empE1 : EmployeeCreate :=
  ⟨"ACME", "E1", "Jane", "Doe", "jane@acme.test", "555", "Engineer", "Admin", "pw"⟩

/-- The stored row add_employee produces for `empE1` (password hashed,
active set to true). -/
def e1Row : EmployeeRow :=
  ⟨"ACME", "E1", "Jane", "Doe", "jane@acme.test", "555", "Engineer", "Admin",
    "$2b$12$pw", true⟩

/-- The state after inserting E1 into `stACME`. -/
def c5State : DBState := (add_employee empE1 stACME).st

/-- An update payload supplying only the first name. -/
def c4Update : EmployeeUpdate := { first_name := some "X" }

/-- An update payload supplying no fields at all. -/
def emptyUpdate : EmployeeUpdate := {}

/-- A tenant key that is unsafe as a SQL identifier (space, semicolon). -/
def c1BadKey : String := "x; DROP TABLE Students"

/-- A create payload reusing the taken key "ACME". -/
def c6Payload : CompanyCreate :=
  { company_code := "ACME", company_name := "Acme 2", company_address := "2 Main St"
    company_city := "Springfield", company_state := "Illinois", company_country := "USA" }

/-- The state after add_team created ACME's dynamic team table. -/
def c2State : DBState := (add_team ⟨"ACME", "Sales", "Sales team"⟩ stACME).st

/-- The row that add_employee stores for a payload: every supplied field
verbatim except the password, which is replaced by its digest; `Active` is
set to true. -/
def insertedRow (data : EmployeeCreate) : EmployeeRow :=
  { company_code := data.company_code
    employee_code := data.employee_code
    first_name := data.first_name
    last_name := data.last_name
    email := data.email
    mobile := data.mobile
    designation := data.designation
    role := data.role
    password := hash_password data.password
    active := true }

/-! Helper lemmas about the table association-list operations and the
dashboard loop. -/

/-- After `DROP TABLE`, the dropped name no longer resolves. -/
theorem findTable_removeTable_self {α : Type} (ts : List (String × List α))
    (name : String) : findTable (removeTable ts name) name = none := by
  induction ts with
  | nil => rfl
  | cons p rest ih =>
      obtain ⟨n, rs⟩ := p
      by_cases h : n = name
      · simpa [removeTable, List.filter_cons, h] using ih
      · simp only [removeTable, List.filter_cons] at *
        simp [h, findTable, ih]

/-- Replacing a present table's rows makes the name resolve to the new
rows; an absent name still resolves to nothing. -/
theorem findTable_setTable_self {α : Type} (ts : List (String × List α))
    (name : String) (rows : List α) :
    findTable (setTable ts name rows) name =
      (findTable ts name).map (fun _ => rows) := by
  induction ts with
  | nil => rfl
  | cons p rest ih =>
      obtain ⟨n, rs⟩ := p
      cases h : (n == name) with
      | true => simp [setTable, findTable, h]
      | false => simp [setTable, findTable, h, ih]

/-- `fetchone` over a list whose existing rows all miss the predicate finds
a freshly appended matching row. -/
theorem find?_append_of_none {α : Type} (rows : List α) (p : α → Bool)
    (row : α) (h : rows.find? p = none) (hp : p row = true) :
    (rows ++ [row]).find? p = some row := by
  induction rows with
  | nil => simp [List.find?, hp]
  | cons a l ih =>
      cases ha : p a with
      | true => simp [List.find?_cons, ha] at h
      | false =>
          rw [List.find?_cons_of_neg] at h
          · simpa [List.find?_cons, ha] using ih h
          · simp [ha]

/-- The dashboard loop emits exactly one entry per registry row. -/
theorem dashboardFold_length (st : DBState) (cs : List Company) :
    (dashboardFold st cs).2.length = cs.length := by
  induction cs with
  | nil => rfl
  | cons c rest ih =>
      simp only [dashboardFold]
      cases h : findTable st.empTables (employeeTableName c.company_code) <;>
        simp [h, ih]

/-- The dashboard loop's running total equals the sum of the per-company
counts it reports. -/
theorem dashboardFold_total (st : DBState) (cs : List Company) :
    (dashboardFold st cs).1 =
      ((dashboardFold st cs).2.map (fun e => e.employees_count)).sum := by
  induction cs with
  | nil => rfl
  | cons c rest ih =>
      simp only [dashboardFold]
      cases h : findTable st.empTables (employeeTableName c.company_code) <;>
        simp [h, ih]

/-- A registry row whose employee table is missing is reported by the
dashboard loop with count 0. -/
theorem dashboardFold_mem_zero (st : DBState) (cs : List Company)
    (c : Company) (hc : c ∈ cs)
    (hmiss : findTable st.empTables (employeeTableName c.company_code) = none) :
    (⟨c.id, c.company_name, c.company_code, 0⟩ : CompanyDashboardEntry) ∈
      (dashboardFold st cs).2 := by
  induction cs with
  | nil => cases hc
  | cons a rest ih =>
      simp only [dashboardFold]
      rcases List.mem_cons.mp hc with rfl | hmem
      · simp [hmiss]
      · cases h : findTable st.empTables (employeeTableName a.company_code) <;>
          simp [h, ih hmem]

/-! Claim theorems. -/

/-- Claim C1: the claim requires every tenant key to pass identifier-safety
validation before any DDL or DML string embedding it is assembled, with
unsafe keys rejected as `InvalidIdentifier`.  The code has no such check:
for the unsafe key "x; DROP TABLE Students", get_employee assembles and
submits a SELECT whose text embeds the raw key, and the outcome is an
unhandled driver error — `InvalidIdentifier` is produced by no code path. -/
theorem c1_no_identifier_validation :
    (get_employee c1BadKey "E1" stEmpty).sql =
      ["SELECT * FROM `x; DROP TABLE Students_Employees` WHERE `Employee Code` = :employee_code"] ∧
    (get_employee c1BadKey "E1" stEmpty).res =
      .error (.unhandledExc
        "ProgrammingError: table `x; DROP TABLE Students_Employees` does not exist") :=
  ⟨rfl, rfl⟩

/-- Claim C2 counterexample: the claim says deleteTenant drops ALL of the
tenant's dynamic tables.  Starting from ACME with its employee table and the
`ACME_Teams` table that add_team created, delete_company succeeds and
removes the registry row, yet `ACME_Teams` — a table derived from the
tenant key — survives the tenant. -/
theorem c2_counterexample :
    (delete_company "ACME" c2State).res =
      .ok "Company and its employee table deleted successfully." ∧
    (delete_company "ACME" c2State).st.companies = [] ∧
    findTable (delete_company "ACME" c2State).st.teamTables (teamTableName "ACME") =
      some [⟨"Sales", "Sales team"⟩] :=
  ⟨rfl, rfl, rfl⟩

/-- Claim C2 (amended): for a key present in the registry, delete_company
drops the tenant's dynamic EMPLOYEE table (its DROP is the one SQL
statement issued, ahead of the registry-row delete) and deletes the
registry row; the dynamic team table, if any, is left untouched; for an
absent key it fails NotFound and changes nothing. -/
theorem c2_delete_company_spec (company_code : String) (st : DBState) :
    (findCompany st.companies company_code = none →
      delete_company company_code st =
        ⟨.error (.httpError 404 "Company not found."), st, []⟩) ∧
    (∀ c, findCompany st.companies company_code = some c →
      (delete_company company_code st).res =
        .ok "Company and its employee table deleted successfully." ∧
      findTable (delete_company company_code st).st.empTables
        (employeeTableName company_code) = none ∧
      (delete_company company_code st).st.teamTables = st.teamTables ∧
      (delete_company company_code st).st.companies =
        st.companies.filter (fun x => x.id != c.id) ∧
      (delete_company company_code st).sql =
        [dropEmployeeTableSql (employeeTableName company_code)]) := by
  constructor
  · intro h
    simp [delete_company, h]
  · intro c h
    refine ⟨?_, ?_, ?_, ?_, ?_⟩ <;>
      simp [delete_company, h, findTable_removeTable_self]

/-- Claim C2 witness: the amended theorem applied to ACME present in the
registry. -/
theorem c2_witness :
    findCompany stACME.companies "ACME" = some acme ∧
    (delete_company "ACME" stACME).res =
      .ok "Company and its employee table deleted successfully." ∧
    findTable (delete_company "ACME" stACME).st.empTables
      (employeeTableName "ACME") = none :=
  ⟨rfl, ((c2_delete_company_spec "ACME" stACME).2 acme rfl).1,
    ((c2_delete_company_spec "ACME" stACME).2 acme rfl).2.1⟩

/-- Claim C3: the claim requires getEmployee after deleteTenant to fail
with the typed TenantNotFound error.  get_employee performs no registry or
table check, so after delete_company the SELECT against the dropped table
raises a driver error that nothing catches — a raw database failure, not a
typed 404. -/
theorem c3_raw_error_after_delete :
    (delete_company "ACME" stACME).res =
      .ok "Company and its employee table deleted successfully." ∧
    (get_employee "ACME" "E1" (delete_company "ACME" stACME).st).res =
      .error (.unhandledExc "ProgrammingError: table `ACME_Employees` does not exist") :=
  ⟨rfl, rfl⟩

/-- Claim C4 counterexample: the claim says a non-empty update fails with
NotFound when zero rows matched.  Updating the first name of the absent
employee E1 against ACME's existing but empty table returns plain success
and leaves the state unchanged — no NotFound is ever produced. -/
theorem c4_counterexample :
    findTable stACME.empTables "ACME_Employees" = some [] ∧
    (update_employee "ACME" "E1" c4Update stACME).res =
      .ok "Employee updated successfully." ∧
    (update_employee "ACME" "E1" c4Update stACME).st = stACME :=
  ⟨rfl, rfl, by decide⟩

/-- Claim C4 (amended): update_employee builds its SET clause from exactly
the supplied fields; an empty change-set fails NoFieldsProvided before any
SQL is assembled and leaves the state untouched; a non-empty change-set
against an existing table applies the supplied fields to every matching row
and reports success regardless of how many rows matched. -/
theorem c4_update_employee_spec (company_code employee_code : String)
    (data : EmployeeUpdate) (st : DBState) :
    (setClauses data = [] →
      update_employee company_code employee_code data st =
        ⟨.error (.httpError 400 "No fields to update."), st, []⟩) ∧
    (∀ rows, setClauses data ≠ [] →
      findTable st.empTables (employeeTableName company_code) = some rows →
      (update_employee company_code employee_code data st).res =
        .ok "Employee updated successfully." ∧
      (update_employee company_code employee_code data st).st =
        { st with empTables :=
            (setTable st.empTables (employeeTableName company_code)
              (rows.map (fun e =>
                if e.employee_code == employee_code then applyUpdate data e else e))) }) := by
  constructor
  · intro h
    simp [update_employee, h]
  · intro rows hne ht
    have hemp : (setClauses data).isEmpty = false := by
      cases hsc : setClauses data with
      | nil => exact absurd hsc hne
      | cons a l => rfl
    constructor <;> simp [update_employee, hemp, ht]

/-- Claim C4 witness: the empty change-set branch at a concrete input. -/
theorem c4_witness :
    setClauses emptyUpdate = [] ∧
    update_employee "ACME" "E1" emptyUpdate stACME =
      ⟨.error (.httpError 400 "No fields to update."), stACME, []⟩ :=
  ⟨rfl, (c4_update_employee_spec "ACME" "E1" emptyUpdate stACME).1 rfl⟩

/-- Claim C5: add_employee fails TenantNotFound (404 "Company does not
exist.") when the tenant key is not in the registry, with no state change
and no SQL assembled (the registry check precedes the table-name build);
and when the tenant exists and its table already holds exactly one row with
the employee code, it fails DuplicateKey (400) and leaves the state — hence
that single row — unchanged. -/
theorem c5_add_employee_spec (data : EmployeeCreate) (st : DBState) :
    (findCompany st.companies data.company_code = none →
      add_employee data st =
        ⟨.error (.httpError 404 "Company does not exist."), st, []⟩) ∧
    (∀ c rows, findCompany st.companies data.company_code = some c →
      findTable st.empTables (employeeTableName data.company_code) = some rows →
      rows.countP (fun e => e.employee_code == data.employee_code) = 1 →
      (add_employee data st).res =
        .error (.httpError 400 "Employee code or email already exists.") ∧
      (add_employee data st).st = st) := by
  constructor
  · intro h
    simp [add_employee, h]
  · intro c rows hc ht hcount
    have hpos : 0 < rows.countP (fun e => e.employee_code == data.employee_code) := by
      omega
    have hany : rows.any (fun e => e.employee_code == data.employee_code) = true := by
      rw [List.any_eq_true]
      obtain ⟨a, ha, hpa⟩ := List.countP_pos_iff.mp hpos
      exact ⟨a, ha, hpa⟩
    constructor <;> simp [add_employee, hc, ht, hany]

/-- Claim C5 witness: inserting E1 twice — the second call on the state the
first one produced returns DuplicateKey and retains the single row. -/
theorem c5_witness :
    findCompany c5State.companies "ACME" = some acme ∧
    findTable c5State.empTables "ACME_Employees" = some [e1Row] ∧
    [e1Row].countP (fun e => e.employee_code == "E1") = 1 ∧
    (add_employee empE1 c5State).res =
      .error (.httpError 400 "Employee code or email already exists.") ∧
    (add_employee empE1 c5State).st = c5State :=
  ⟨rfl, rfl, by decide,
    ((c5_add_employee_spec empE1 c5State).2 acme [e1Row] rfl rfl (by decide)).1,
    ((c5_add_employee_spec empE1 c5State).2 acme [e1Row] rfl rfl (by decide)).2⟩

/-- Claim C6: create_company on a key already in the registry fails
DuplicateKey (400 "Company code already exists.") before any construction
or DDL, leaving the whole state — the single registry row for the key and
the dynamic tables — unchanged. -/
theorem c6_create_company_duplicate (data : CompanyCreate) (st : DBState)
    (c : Company)
    (h : findCompany st.companies data.company_code = some c)
    (hcount : st.companies.countP
      (fun x => x.company_code == data.company_code) = 1) :
    create_company data st =
      ⟨.error (.httpError 400 "Company code already exists."), st, []⟩ ∧
    (create_company data st).st.companies.countP
      (fun x => x.company_code == data.company_code) = 1 ∧
    (create_company data st).st.empTables = st.empTables := by
  refine ⟨?_, ?_, ?_⟩ <;> simp [create_company, h, hcount]

/-- Claim C6 witness: re-creating the taken key "ACME". -/
theorem c6_witness :
    findCompany stACME.companies "ACME" = some acme ∧
    stACME.companies.countP (fun x => x.company_code == "ACME") = 1 ∧
    create_company c6Payload stACME =
      ⟨.error (.httpError 400 "Company code already exists."), stACME, []⟩ :=
  ⟨rfl, by decide,
    (c6_create_company_duplicate c6Payload stACME acme rfl (by decide)).1⟩

/-- Claim C7: the dashboard never fails as a whole because of one tenant's
table: a registry row whose employee table is missing is reported with
employees_count 0, and the per-tenant list still has one entry per registry
row (iteration continues over the remaining tenants). -/
theorem c7_dashboard_graceful (st : DBState) (c : Company)
    (hc : c ∈ st.companies)
    (hmiss : findTable st.empTables (employeeTableName c.company_code) = none) :
    (⟨c.id, c.company_name, c.company_code, 0⟩ : CompanyDashboardEntry) ∈
      (get_dashboard_data st).companies_list ∧
    (get_dashboard_data st).companies_list.length = st.companies.length :=
  ⟨dashboardFold_mem_zero st st.companies c hc hmiss,
    dashboardFold_length st st.companies⟩

/-- Claim C7 witness: ACME registered with its table dropped out of band is
reported with count 0. -/
theorem c7_witness :
    acme ∈ stACMEnoTable.companies ∧
    findTable stACMEnoTable.empTables (employeeTableName "ACME") = none ∧
    (⟨1, "Acme Corp", "ACME", 0⟩ : CompanyDashboardEntry) ∈
      (get_dashboard_data stACMEnoTable).companies_list :=
  ⟨by decide, rfl,
    (c7_dashboard_graceful stACMEnoTable acme (by decide) rfl).1⟩

/-- Claim C8: the claim requires teamsForTenant to fail with NotFound
exactly when the tenant's employee table does not exist.  The body does
raise a 404 for that case, but the surrounding blanket `except Exception`
catches starlette's HTTPException like any other exception and re-raises it
as a generic 500 "Database error: ...", so the caller sees an internal
failure, not NotFound. -/
theorem c8_missing_table_is_500 :
    get_company_teams "ACME" stACMEnoTable =
      .error (.httpError 500
        "Database error: 404: Employee table for company 'ACME' not found.") :=
  rfl

/-- Claim C9 counterexample: the claim says the fetched record equals the
inserted employee in ALL supplied fields.  Inserting E1 (password "pw") and
fetching it back returns the stored row, whose password field holds the
digest and differs from the supplied password. -/
theorem c9_counterexample :
    (add_employee empE1 stACME).res = .ok "Employee added successfully." ∧
    (get_employee "ACME" "E1" (add_employee empE1 stACME).st).res = .ok e1Row ∧
    e1Row.password ≠ empE1.password :=
  ⟨rfl, rfl, by decide⟩

/-- Claim C9 (amended): for a registered tenant whose employee table exists
and holds no row with the employee code, insertEmployee followed by
getEmployee round-trips every supplied field verbatim except the password,
which is returned as the digest of the supplied password (and Active is
true). -/
theorem c9_roundtrip (data : EmployeeCreate) (st : DBState) (c : Company)
    (rows : List EmployeeRow)
    (hc : findCompany st.companies data.company_code = some c)
    (ht : findTable st.empTables (employeeTableName data.company_code) = some rows)
    (hfresh : rows.find? (fun e => e.employee_code == data.employee_code) = none) :
    (add_employee data st).res = .ok "Employee added successfully." ∧
    (get_employee data.company_code data.employee_code (add_employee data st).st).res =
      .ok (insertedRow data) := by
  have hany : rows.any (fun e => e.employee_code == data.employee_code) = false := by
    rw [List.any_eq_false]
    intro a ha
    exact List.find?_eq_none.mp hfresh a ha
  constructor
  · simp [add_employee, hc, ht, hany]
  · simp [add_employee, hc, ht, hany, get_employee, findTable_setTable_self,
      insertedRow, hfresh]

/-- Claim C9 witness: the amended round-trip at the concrete employee E1. -/
theorem c9_witness :
    findCompany stACME.companies "ACME" = some acme ∧
    findTable stACME.empTables "ACME_Employees" = some [] ∧
    (get_employee "ACME" "E1" (add_employee empE1 stACME).st).res =
      .ok (insertedRow empE1) :=
  ⟨rfl, rfl, (c9_roundtrip empE1 stACME acme [] rfl rfl rfl).2⟩

/-- Claim C10: for every state, the dashboard's companies_count equals the
length of its per-tenant list (one entry per registry row on both branches)
and its employees_count equals the sum of the per-tenant counts it
reports. -/
theorem c10_dashboard_invariants (st : DBState) :
    (get_dashboard_data st).companies_count =
      (get_dashboard_data st).companies_list.length ∧
    (get_dashboard_data st).employees_count =
      ((get_dashboard_data st).companies_list.map
        (fun e => e.employees_count)).sum :=
  ⟨(dashboardFold_length st st.companies).symm,
    dashboardFold_total st st.companies⟩

end Luva
